import Mathlib

/-!
# Snippetbox — verification of the snippet store and HTTP handler layer

A shallow embedding of the Go sources of the `snippetbox` repository:

* `internal/models/snippets.go` — the snippet store (`Insert`, `Get`,
  `Latest`, the schema bootstrap operations and `SeedDatabase`);
* `cmd/web/main.go` — the startup sequence around the schema bootstrap;
* the handler file (`home`, `snippetView`, `snippetCreate`).

The MySQL `snippets` table is modelled as a list of rows together with the
auto-increment counter and the database clock (`UTC_TIMESTAMP()`, in
seconds).  An underlying storage failure — connectivity loss, driver
error — is modelled by an optional failure message on the handle: when it
is set, every statement fails with a generic (driver) error, mirroring how
`database/sql` surfaces such failures.  `sql.ErrNoRows` from `QueryRow`
corresponds to an empty result of the row filter.
-/

namespace Snippetbox

/-- `INTERVAL ? DAY` in seconds: the granularity of `DATE_ADD`. -/
def secondsPerDay : Nat := 86400

/-- `models.Snippet` — one row of the `snippets` table
(`id PK AUTO_INCREMENT, title, content, created, expires`). -/
structure Snippet where
  id : Int
  title : String
  content : String
  created : Nat
  expires : Nat
deriving DecidableEq, Repr

/-- Errors surfaced by the store: the distinguished sentinel
`models.ErrNoRecord` (declared in the models package and returned by `Get`
when `QueryRow` yields `sql.ErrNoRows`), versus a generic underlying
storage error carrying the driver message. -/
inductive ModelsError where
  | ErrNoRecord : ModelsError
  | storageError : String → ModelsError
deriving DecidableEq, Repr

/-- The state behind the `*sql.DB` pool of `models.SnippetModel`, restricted
to the `snippets` table: the rows, the `AUTO_INCREMENT` counter, the value
of `UTC_TIMESTAMP()` in seconds, and — when set — an underlying storage
failure that makes every statement fail. -/
structure DB where
  rows : List Snippet
  nextId : Int
  now : Nat
  failure : Option String
deriving DecidableEq, Repr

namespace SnippetModel

/-- `SnippetModel.Insert(title, content, expires)` — executes
`INSERT INTO snippets (title, content, created, expires)
VALUES(?, ?, UTC_TIMESTAMP(), DATE_ADD(UTC_TIMESTAMP(), INTERVAL ? DAY))`
and returns `LastInsertId()`.  The `expires` parameter is a number of days.
On any `Exec`/`LastInsertId` failure it returns `(0, err)` and the table is
unchanged. -/
def Insert (db : DB) (title content : String) (expires : Nat) :
    Except ModelsError Int × DB :=
  match db.failure with
  | some msg => (.error (.storageError msg), db)
  | none =>
    let id := db.nextId
    (.ok id,
      { db with
        rows := db.rows ++
          [{ id := id, title := title, content := content,
             created := db.now,
             expires := db.now + expires * secondsPerDay }],
        nextId := id + 1 })

/-- The row predicate of `Get`:
`WHERE expires > UTC_TIMESTAMP() AND id = ?`. -/
def getPred (db : DB) (id : Int) (r : Snippet) : Bool :=
  decide (db.now < r.expires) && r.id == id

/-- `SnippetModel.Get(id)` — executes
`SELECT id, title, content, created, expires FROM snippets
WHERE expires > UTC_TIMESTAMP() AND id = ?` via `QueryRow().Scan`.
`sql.ErrNoRows` (no matching row) is mapped to `ErrNoRecord`; every other
scan error is returned as is. -/
def Get (db : DB) (id : Int) : Except ModelsError Snippet :=
  match db.failure with
  | some msg => .error (.storageError msg)
  | none =>
    match db.rows.find? (getPred db id) with
    | some s => .ok s
    | none => .error .ErrNoRecord

/-- `SnippetModel.Latest(c)` — executes
`SELECT ... FROM snippets WHERE expires > UTC_TIMESTAMP()
ORDER BY id DESC LIMIT ?` and scans every row into a slice; iterating an
empty result set leaves the slice empty and returns no error. -/
def Latest (db : DB) (c : Nat) : Except ModelsError (List Snippet) :=
  match db.failure with
  | some msg => .error (.storageError msg)
  | none =>
    .ok ((((db.rows.filter (fun r => decide (db.now < r.expires))).mergeSort
      (fun a b => decide (b.id ≤ a.id))).take c))

end SnippetModel

/-- The DDL-level schema state touched by the bootstrap operations: which of
the two tables and two indexes exist, plus the underlying-failure flag of
the shared handle. -/
structure Schema where
  snippetsTable : Bool
  snippetsIndex : Bool
  sessionsTable : Bool
  sessionsIndex : Bool
  failure : Option String
deriving DecidableEq, Repr

namespace SnippetModel

/-- `SnippetModel.CreateSnippetTable` —
`CREATE TABLE IF NOT EXISTS snippets (...)`: idempotent, succeeds whether or
not the table already exists. -/
def CreateSnippetTable (s : Schema) : Except ModelsError Unit × Schema :=
  match s.failure with
  | some msg => (.error (.storageError msg), s)
  | none => (.ok (), { s with snippetsTable := true })

/-- `SnippetModel.CreateSnippetIndex` —
`CREATE INDEX idx_snippets_created ON snippets(created)`: not idempotent,
a second invocation fails with a duplicate-key error from the server. -/
def CreateSnippetIndex (s : Schema) : Except ModelsError Unit × Schema :=
  match s.failure with
  | some msg => (.error (.storageError msg), s)
  | none =>
    if s.snippetsIndex then
      (.error (.storageError "Duplicate key name idx_snippets_created"), s)
    else (.ok (), { s with snippetsIndex := true })

/-- `SnippetModel.CreateSessionTable` —
`CREATE TABLE IF NOT EXISTS sessions (...)`: idempotent. -/
def CreateSessionTable (s : Schema) : Except ModelsError Unit × Schema :=
  match s.failure with
  | some msg => (.error (.storageError msg), s)
  | none => (.ok (), { s with sessionsTable := true })

/-- `SnippetModel.CreateSessionIndex` —
`CREATE INDEX sessions_expiry_idx ON sessions(expiry)`: not idempotent. -/
def CreateSessionIndex (s : Schema) : Except ModelsError Unit × Schema :=
  match s.failure with
  | some msg => (.error (.storageError msg), s)
  | none =>
    if s.sessionsIndex then
      (.error (.storageError "Duplicate key name sessions_expiry_idx"), s)
    else (.ok (), { s with sessionsIndex := true })

/-- The `information_schema` count queried by `SeedDatabase`:
`SELECT COUNT(*) FROM information_schema.tables WHERE table_schema =
DATABASE() AND table_name IN ('snippets', 'sessions')`. -/
def tableCount (s : Schema) : Nat :=
  (if s.snippetsTable then 1 else 0) + (if s.sessionsTable then 1 else 0)

/-- `SnippetModel.SeedDatabase` — queries the table count; if `count > 0` it
returns `nil` immediately, otherwise it runs the four bootstrap operations
in order, returning the first error. -/
def SeedDatabase (s : Schema) : Except ModelsError Unit × Schema :=
  match s.failure with
  | some msg => (.error (.storageError msg), s)
  | none =>
    if tableCount s > 0 then (.ok (), s)
    else
      match CreateSnippetTable s with
      | (.error e, s1) => (.error e, s1)
      | (.ok _, s1) =>
        match CreateSnippetIndex s1 with
        | (.error e, s2) => (.error e, s2)
        | (.ok _, s2) =>
          match CreateSessionTable s2 with
          | (.error e, s3) => (.error e, s3)
          | (.ok _, s3) =>
            match CreateSessionIndex s3 with
            | (.error e, s4) => (.error e, s4)
            | (.ok _, s4) => (.ok (), s4)

end SnippetModel

/-- What the schema-bootstrap fragment of `main` (cmd/web/main.go) does to
the process: whether it calls `os.Exit(1)` and whether `logger.Warn` is
invoked. -/
structure StartupOutcome where
  exited : Bool
  warnLogged : Bool
deriving DecidableEq, Repr

/-- The schema-bootstrap fragment of `main`, parameterised by the results of
the two store calls.  Line by line:
`err = app.snippets.CreateSnippetTable()` — on error, log and `os.Exit(1)`.
Then `app.snippets.CreateSnippetIndex()` — the return value is DISCARDED
(it is not assigned to `err`), so the following `if err != nil` still tests
the `nil` left over from the table branch and the `Warn` branch is dead
code. -/
def mainInitSchema (tableErr indexErr : Option String) : StartupOutcome :=
  match tableErr with
  | some _ => { exited := true, warnLogged := false }
  | none =>
    let err : Option String := none
    let _ := indexErr
    match err with
    | some _ => { exited := false, warnLogged := true }
    | none => { exited := false, warnLogged := false }

/-- The HTTP responses the three handlers can produce.  `notFound` and
`serverError` are the helper responses (`app.notFound`, `app.serverError`):
a bare 404 and a generic 500 carrying no internal detail — both are
constant constructors, so by construction no error detail reaches the
client.  `methodNotAllowed` is `app.clientError(405)` after setting the
`Allow` header; `seeOther` is `http.Redirect(..., http.StatusSeeOther)`
with the given `Location`. -/
inductive HttpResponse where
  | okSnippet : Snippet → HttpResponse
  | okList : List Snippet → HttpResponse
  | notFound : HttpResponse
  | serverError : HttpResponse
  | methodNotAllowed : String → HttpResponse
  | seeOther : String → HttpResponse
deriving DecidableEq, Repr

/-- The HTTP status code of each response (the helpers file that writes
them is not under src/; per the spec's error taxonomy: not-found is 404,
generic server error is 500, wrong method is 405, the redirect uses
`http.StatusSeeOther` = 303, renders are 200). -/
def HttpResponse.status : HttpResponse → Nat
  | .okSnippet _ => 200
  | .okList _ => 200
  | .notFound => 404
  | .serverError => 500
  | .methodNotAllowed _ => 405
  | .seeOther _ => 303

/-- The `Allow` header set by a response, if any. -/
def HttpResponse.allowHeader : HttpResponse → Option String
  | .methodNotAllowed m => some m
  | _ => none

/-- The `Location` header set by a response, if any. -/
def HttpResponse.location : HttpResponse → Option String
  | .seeOther l => some l
  | _ => none

/-- Accumulate decimal digits, failing on the first non-digit — the digit
loop of Go's `strconv.Atoi`. -/
def atoiDigits (cs : List Char) : Option Nat :=
  cs.foldl
    (fun acc c =>
      match acc with
      | none => none
      | some n => if c.isDigit then some (n * 10 + (c.toNat - 48)) else none)
    (some 0)

/-- Go's `strconv.Atoi`: an optional leading sign followed by at least one
decimal digit; anything else is an error (`none`).  (The 64-bit range error
of the real `Atoi` is not modelled; the handler under verification treats
every `Atoi` error identically.) -/
def strconvAtoi (s : String) : Option Int :=
  match s.toList with
  | [] => none
  | '+' :: rest => if rest = [] then none else (atoiDigits rest).map Int.ofNat
  | '-' :: rest =>
    if rest = [] then none
    else (atoiDigits rest).map (fun n => -(Int.ofNat n))
  | cs => (atoiDigits cs).map Int.ofNat

namespace Handlers

/-- `application.home` — rejects any path other than `"/"` with the
not-found helper before touching templates or the store; then parses the
template files (`templateErr` is the result of `template.ParseFiles`, an
external filesystem effect); then calls `app.snippets.Latest(20)` and
renders the result, mapping any store error to the generic server error. -/
def home (db : DB) (path : String) (templateErr : Option String) :
    HttpResponse :=
  if path ≠ "/" then .notFound
  else
    match templateErr with
    | some _ => .serverError
    | none =>
      match SnippetModel.Latest db 20 with
      | .error _ => .serverError
      | .ok snippets => .okList snippets

/-- `application.snippetView` — `id, err := strconv.Atoi(r.URL.Query().Get("id"))`;
`if err != nil || id < 1` respond not-found; then `app.snippets.Get(id)`:
`ErrNoRecord` maps to not-found, any other error to the generic server
error; on success the template is parsed (`templateErr`) and the snippet
rendered. -/
def snippetView (db : DB) (idQuery : String) (templateErr : Option String) :
    HttpResponse :=
  match strconvAtoi idQuery with
  | none => .notFound
  | some id =>
    if id < 1 then .notFound
    else
      match SnippetModel.Get db id with
      | .error .ErrNoRecord => .notFound
      | .error (.storageError _) => .serverError
      | .ok s =>
        match templateErr with
        | some _ => .serverError
        | none => .okSnippet s

/-- `application.snippetCreate` — on any method other than POST, sets
`Allow: POST` and responds 405 via `app.clientError`; otherwise inserts the
hardcoded `("Test Title", "Test Content", 7)` and redirects with
`http.Redirect(w, r, fmt.Sprintf("/snippet?id=%d", id),
http.StatusSeeOther)`; an insert error yields the generic server error. -/
def snippetCreate (db : DB) (method : String) : HttpResponse × DB :=
  if method ≠ "POST" then (.methodNotAllowed "POST", db)
  else
    match SnippetModel.Insert db "Test Title" "Test Content" 7 with
    | (.error _, db2) => (.serverError, db2)
    | (.ok id, db2) => (.seeOther ("/snippet?id=" ++ toString id), db2)

end Handlers

/-- Modelled from the spec: the route table (`app.routes()`) is not under
src/.  Per the spec's HTTP surface, the detail view — the path that renders
one snippet by id — is served at `GET /snippet/view?id=<int>`. -/
def detailViewPath (id : Int) : String := "/snippet/view?id=" ++ toString id

/-! ## Concrete states used by the witnesses -/

/-- A fresh, empty, healthy table. -/
def dbEmpty : DB := { rows := [], nextId := 1, now := 0, failure := none }

/-- A healthy table holding one unexpired snippet. -/
def dbOne : DB :=
  { rows := [{ id := 1, title := "a", content := "b", created := 0, expires := 10 }],
    nextId := 2, now := 0, failure := none }

/-- A table holding one snippet that has already expired
(`expires = 5 ≤ now = 10`). -/
def dbExpired : DB :=
  { rows := [{ id := 1, title := "x", content := "y", created := 0, expires := 5 }],
    nextId := 2, now := 10, failure := none }

/-- A handle whose underlying storage is failing. -/
def dbFail : DB :=
  { rows := [], nextId := 1, now := 0, failure := some "connection refused" }

/-! ## Theorems -/

/-- C1: `Get(id)` fails with the distinguished `ErrNoRecord` exactly when no
row with that id and `expires > now` exists, and on an underlying storage
failure it fails with a different, generic error — so a caller can always
distinguish absent/expired from storage unavailable. -/
theorem Get_error_semantics (db : DB) (id : Int) :
    (db.failure = none →
      (SnippetModel.Get db id = .error .ErrNoRecord ↔
        ∀ r ∈ db.rows, ¬(r.id = id ∧ db.now < r.expires))) ∧
    (∀ msg, db.failure = some msg →
      SnippetModel.Get db id = .error (.storageError msg) ∧
      SnippetModel.Get db id ≠ .error .ErrNoRecord) := by
  constructor
  · intro hf
    simp only [SnippetModel.Get, hf]
    constructor
    · intro h r hr hc
      cases hfind : db.rows.find? (SnippetModel.getPred db id) with
      | some s => rw [hfind] at h; exact absurd h (by simp)
      | none =>
        rw [List.find?_eq_none] at hfind
        exact hfind r hr (by simp [SnippetModel.getPred, hc.1, hc.2])
    · intro hall
      have hnone : db.rows.find? (SnippetModel.getPred db id) = none := by
        rw [List.find?_eq_none]
        intro r hr hp
        simp only [SnippetModel.getPred, Bool.and_eq_true, decide_eq_true_eq,
          beq_iff_eq] at hp
        exact hall r hr ⟨hp.2, hp.1⟩
      rw [hnone]
  · intro msg hmsg
    simp [SnippetModel.Get, hmsg]

/-- Witness for C1 at concrete states: on the empty table `Get 1` is the
not-found condition; on a failing handle it is the generic storage error. -/
theorem Get_error_semantics_witness :
    SnippetModel.Get dbEmpty 1 = .error .ErrNoRecord ∧
    SnippetModel.Get dbFail 1 = .error (.storageError "connection refused") :=
  ⟨((Get_error_semantics dbEmpty 1).1 rfl).mpr (by simp [dbEmpty]),
   ((Get_error_semantics dbFail 1).2 "connection refused" rfl).1⟩

/-- C6: any request to the create endpoint whose method is not POST gets a
405 with `Allow: POST`, and the database is left untouched (no insert). -/
theorem snippetCreate_wrong_method (db : DB) (m : String) (hm : m ≠ "POST") :
    Handlers.snippetCreate db m = (.methodNotAllowed "POST", db) ∧
    (Handlers.snippetCreate db m).1.status = 405 ∧
    (Handlers.snippetCreate db m).1.allowHeader = some "POST" := by
  simp [Handlers.snippetCreate, hm, HttpResponse.status, HttpResponse.allowHeader]

/-- Witness for C6: a GET to the create endpoint on the empty table. -/
theorem snippetCreate_wrong_method_witness :
    Handlers.snippetCreate dbEmpty "GET" = (.methodNotAllowed "POST", dbEmpty) ∧
    (Handlers.snippetCreate dbEmpty "GET").1.status = 405 ∧
    (Handlers.snippetCreate dbEmpty "GET").1.allowHeader = some "POST" :=
  snippetCreate_wrong_method dbEmpty "GET" (by decide)

/-- C7: the list-view handler responds not-found on any path other than
exactly `"/"` (for every store state, i.e. without consulting the store),
and on `"/"` it fetches the latest snippets with the fixed constant limit
20 and renders exactly that result. -/
theorem home_responses (db : DB) (p : String) (te : Option String) :
    (p ≠ "/" → Handlers.home db p te = .notFound) ∧
    (∀ l, SnippetModel.Latest db 20 = .ok l →
      Handlers.home db "/" none = .okList l) ∧
    (∀ e, SnippetModel.Latest db 20 = .error e →
      Handlers.home db "/" none = .serverError) := by
  refine ⟨fun hp => ?_, fun l hl => ?_, fun e he => ?_⟩
  · simp [Handlers.home, hp]
  · simp [Handlers.home, hl]
  · simp [Handlers.home, he]

/-- Witness for C7: a stray path 404s, and the root path renders the single
unexpired snippet returned by `Latest 20`. -/
theorem home_responses_witness :
    Handlers.home dbOne "/other" none = .notFound ∧
    Handlers.home dbOne "/" none =
      .okList [{ id := 1, title := "a", content := "b", created := 0, expires := 10 }] :=
  ⟨(home_responses dbOne "/other" none).1 (by decide),
   (home_responses dbOne "/" none).2.1 _ (by simp [SnippetModel.Latest, dbOne])⟩

/-- C8 (evaluation at the failing input): when `CreateSnippetTable` succeeds
and `CreateSnippetIndex` fails (index already exists), `main` neither exits
nor logs a warning — the index error is discarded on the call line, so the
`Warn` branch tests the stale nil `err` and never fires; a table-bootstrap
failure is fatal as claimed. -/
theorem mainInitSchema_outcomes :
    mainInitSchema none (some "Duplicate key name idx_snippets_created") =
      { exited := false, warnLogged := false } ∧
    mainInitSchema (some "create table failed") none =
      { exited := true, warnLogged := false } ∧
    (∀ indexErr, (mainInitSchema none indexErr).warnLogged = false) :=
  ⟨rfl, rfl, fun _ => rfl⟩

/-- C10: `SeedDatabase` returns nil without creating any table or index as
soon as at least one of the tables `snippets`, `sessions` exists — the
schema state is returned unchanged, so in particular a missing second
table and the indexes are not created. -/
theorem SeedDatabase_skips_when_table_exists (s : Schema)
    (hf : s.failure = none)
    (h : s.snippetsTable = true ∨ s.sessionsTable = true) :
    SnippetModel.SeedDatabase s = (.ok (), s) := by
  have hc : SnippetModel.tableCount s > 0 := by
    unfold SnippetModel.tableCount
    rcases h with h | h <;> simp [h]
  simp only [SnippetModel.SeedDatabase, hf]
  rw [if_pos hc]

/-- Witness for C10: only `snippets` exists; `SeedDatabase` succeeds and the
`sessions` table and both indexes remain uncreated. -/
theorem SeedDatabase_skips_witness :
    SnippetModel.SeedDatabase
        { snippetsTable := true, snippetsIndex := false,
          sessionsTable := false, sessionsIndex := false, failure := none } =
      (.ok (),
        { snippetsTable := true, snippetsIndex := false,
          sessionsTable := false, sessionsIndex := false, failure := none }) :=
  SeedDatabase_skips_when_table_exists _ rfl (Or.inl rfl)

/-- C4: the detail-view handler responds not-found (404) on a malformed or
non-positive query-string id, not-found on the store's `ErrNoRecord`, and
the generic server error (500, a bare constant carrying no internal
detail) on any other store error. -/
theorem snippetView_responses (db : DB) (q : String) (te : Option String) :
    (strconvAtoi q = none → Handlers.snippetView db q te = .notFound) ∧
    (∀ i, strconvAtoi q = some i → i < 1 →
      Handlers.snippetView db q te = .notFound) ∧
    (∀ i, strconvAtoi q = some i → 1 ≤ i →
      SnippetModel.Get db i = .error .ErrNoRecord →
      Handlers.snippetView db q te = .notFound) ∧
    (∀ i msg, strconvAtoi q = some i → 1 ≤ i →
      SnippetModel.Get db i = .error (.storageError msg) →
      Handlers.snippetView db q te = .serverError) ∧
    HttpResponse.notFound.status = 404 ∧ HttpResponse.serverError.status = 500 := by
  refine ⟨fun h => ?_, fun i hi hlt => ?_, fun i hi hge hget => ?_,
    fun i msg hi hge hget => ?_, rfl, rfl⟩
  · simp [Handlers.snippetView, h]
  · simp [Handlers.snippetView, hi, hlt]
  · have hnlt : ¬i < 1 := by omega
    simp [Handlers.snippetView, hi, hnlt, hget]
  · have hnlt : ¬i < 1 := by omega
    simp [Handlers.snippetView, hi, hnlt, hget]

/-- Witness for C4: `?id=abc` and `?id=0` yield 404, a valid-but-absent id
yields 404, and the same id on a failing handle yields the generic 500. -/
theorem snippetView_responses_witness :
    Handlers.snippetView dbEmpty "abc" none = .notFound ∧
    Handlers.snippetView dbEmpty "0" none = .notFound ∧
    Handlers.snippetView dbEmpty "1" none = .notFound ∧
    Handlers.snippetView dbFail "1" none = .serverError :=
  ⟨(snippetView_responses dbEmpty "abc" none).1 rfl,
   (snippetView_responses dbEmpty "0" none).2.1 0 rfl (by decide),
   (snippetView_responses dbEmpty "1" none).2.2.1 1 rfl (by decide) rfl,
   (snippetView_responses dbFail "1" none).2.2.2.1 1 "connection refused" rfl
     (by decide) rfl⟩

/-- C5 counterexample: on a successful POST the handler does issue a
see-other redirect, but its `Location` is `/snippet?id=1`, which is not the
detail-view path `/snippet/view?id=1` of the route table — so the redirect
does not target the path that renders the snippet by id. -/
theorem snippetCreate_location_not_detail_path :
    (Handlers.snippetCreate dbEmpty "POST").1 = .seeOther "/snippet?id=1" ∧
    "/snippet?id=1" ≠ detailViewPath 1 := by
  constructor
  · rfl
  · decide

/-- C5 as amended: on a successful POST, the handler performs the fixed
insert `("Test Title", "Test Content", 7)` and responds 303 See Other with
`Location: /snippet?id=<new id>` (a path that, per the spec's route table,
is not the detail view `/snippet/view`). -/
theorem snippetCreate_post_redirect (db : DB) (hf : db.failure = none) :
    ∃ db2,
      SnippetModel.Insert db "Test Title" "Test Content" 7 = (.ok db.nextId, db2) ∧
      Handlers.snippetCreate db "POST" =
        (.seeOther ("/snippet?id=" ++ toString db.nextId), db2) ∧
      (Handlers.snippetCreate db "POST").1.status = 303 := by
  refine ⟨{ db with
      rows := db.rows ++
        [{ id := db.nextId, title := "Test Title", content := "Test Content",
           created := db.now, expires := db.now + 7 * secondsPerDay }],
      nextId := db.nextId + 1 }, ?_, ?_, ?_⟩ <;>
    simp [Handlers.snippetCreate, SnippetModel.Insert, hf, HttpResponse.status]

/-- Witness for C5's amended theorem at the empty table. -/
theorem snippetCreate_post_redirect_witness :
    ∃ db2,
      SnippetModel.Insert dbEmpty "Test Title" "Test Content" 7 =
        (.ok dbEmpty.nextId, db2) ∧
      Handlers.snippetCreate dbEmpty "POST" =
        (.seeOther ("/snippet?id=" ++ toString dbEmpty.nextId), db2) ∧
      (Handlers.snippetCreate dbEmpty "POST").1.status = 303 :=
  snippetCreate_post_redirect dbEmpty rfl

/-- C2: on a healthy handle, `Latest(n)` always succeeds; the result has at
most `n` snippets, every one of them unexpired, pairwise in strictly
descending id order (the `id` column is the primary key, hence the
pairwise-distinct-ids hypothesis on the table), and it is empty whenever no
unexpired snippet exists. -/
theorem Latest_spec (db : DB) (n : Nat)
    (hf : db.failure = none)
    (hkey : db.rows.Pairwise (fun a b => a.id ≠ b.id)) :
    ∃ l, SnippetModel.Latest db n = .ok l ∧
      l.length ≤ n ∧
      (∀ r ∈ l, db.now < r.expires) ∧
      l.Pairwise (fun a b => b.id < a.id) ∧
      ((∀ r ∈ db.rows, r.expires ≤ db.now) → l = []) := by
  refine ⟨((db.rows.filter (fun r => decide (db.now < r.expires))).mergeSort
      (fun a b => decide (b.id ≤ a.id))).take n, ?_, ?_, ?_, ?_, ?_⟩
  · simp only [SnippetModel.Latest, hf]
  · exact List.length_take_le n _
  · intro r hr
    have hr2 := List.take_subset _ _ hr
    rw [List.mem_mergeSort, List.mem_filter] at hr2
    exact of_decide_eq_true hr2.2
  · have hsorted := @List.sorted_mergeSort Snippet
      (fun a b => decide (b.id ≤ a.id))
      (fun a b c hab hbc => by
        simp only [decide_eq_true_eq] at *
        omega)
      (fun a b => by
        simp only [Bool.or_eq_true, decide_eq_true_eq]
        omega)
      (db.rows.filter (fun r => decide (db.now < r.expires)))
    have hperm := List.mergeSort_perm
      (db.rows.filter (fun r => decide (db.now < r.expires)))
      (fun a b => decide (b.id ≤ a.id))
    have hne : ((db.rows.filter (fun r => decide (db.now < r.expires))).mergeSort
        (fun a b => decide (b.id ≤ a.id))).Pairwise (fun a b => a.id ≠ b.id) :=
      (List.Perm.pairwise_iff (fun hab => hab.symm) hperm).mpr
        (hkey.filter _)
    refine List.Pairwise.sublist (List.take_sublist n _) ?_
    refine (hsorted.and hne).imp (fun hab => ?_)
    have h1 := of_decide_eq_true hab.1
    have h2 := hab.2
    omega
  · intro hall
    have hnil : db.rows.filter (fun r => decide (db.now < r.expires)) = [] := by
      rw [List.filter_eq_nil_iff]
      intro r hr hp
      have h1 := of_decide_eq_true hp
      have h2 := hall r hr
      omega
    rw [hnil]
    simp

/-- Witness for C2 on a concrete one-row table. -/
theorem Latest_spec_witness :
    ∃ l, SnippetModel.Latest dbOne 20 = .ok l ∧
      l.length ≤ 20 ∧
      (∀ r ∈ l, dbOne.now < r.expires) ∧
      l.Pairwise (fun a b => b.id < a.id) ∧
      ((∀ r ∈ dbOne.rows, r.expires ≤ dbOne.now) → l = []) :=
  Latest_spec dbOne 20 rfl (by simp [dbOne])

/-- `Get` on a table extended with a fresh row (its id larger than every
existing id) at a time before that row's expiry returns exactly that row:
the scan of the `WHERE` filter skips every old row (different id) and
accepts the new one. -/
theorem Get_append_fresh (rows : List Snippet) (nid : Int) (t : Nat)
    (s : Snippet) (hfresh : ∀ r ∈ rows, r.id < nid) (hid : s.id = nid)
    (ht : t < s.expires) :
    SnippetModel.Get
      { rows := rows ++ [s], nextId := nid + 1, now := t, failure := none }
      nid = .ok s := by
  simp only [SnippetModel.Get]
  rw [List.find?_append]
  have h1 : rows.find?
      (SnippetModel.getPred
        { rows := rows ++ [s], nextId := nid + 1, now := t, failure := none }
        nid) = none := by
    rw [List.find?_eq_none]
    intro r hr hp
    simp only [SnippetModel.getPred, Bool.and_eq_true, decide_eq_true_eq,
      beq_iff_eq] at hp
    have := hfresh r hr
    omega
  rw [h1, Option.none_or,
    List.find?_cons_of_pos _ (by simp [SnippetModel.getPred, hid, ht])]

/-- C3: for every valid input (`expiryDays > 0`) on a healthy handle,
`Insert` succeeds with the newly assigned id (`AUTO_INCREMENT`: larger than
every id in the table), and a `Get` of that id at any time `t` before the
expiry returns a snippet with exactly the inserted title and content,
`created = now` and `expires = created + expiryDays` days. -/
theorem Insert_then_Get (db : DB) (title content : String) (d t : Nat)
    (hd : 0 < d) (hf : db.failure = none)
    (hfresh : ∀ r ∈ db.rows, r.id < db.nextId)
    (ht : t < db.now + d * secondsPerDay) :
    ∃ id db2,
      SnippetModel.Insert db title content d = (.ok id, db2) ∧
      SnippetModel.Get { db2 with now := t } id =
        .ok { id := id, title := title, content := content,
              created := db.now, expires := db.now + d * secondsPerDay } := by
  refine ⟨db.nextId,
    { rows := db.rows ++
        [{ id := db.nextId, title := title, content := content,
           created := db.now, expires := db.now + d * secondsPerDay }],
      nextId := db.nextId + 1, now := db.now, failure := none }, ?_, ?_⟩
  · simp only [SnippetModel.Insert, hf]
  · exact Get_append_fresh db.rows db.nextId t _ hfresh rfl ht

/-- Witness for C3: insert `("Hello", "World", 1)` into the empty table and
read it back immediately. -/
theorem Insert_then_Get_witness :
    ∃ id db2,
      SnippetModel.Insert dbEmpty "Hello" "World" 1 = (.ok id, db2) ∧
      SnippetModel.Get { db2 with now := 0 } id =
        .ok { id := id, title := "Hello", content := "World",
              created := dbEmpty.now,
              expires := dbEmpty.now + 1 * secondsPerDay } :=
  Insert_then_Get dbEmpty "Hello" "World" 1 0 (by decide) rfl
    (by simp [dbEmpty]) (by decide)

/-- In a table whose ids are pairwise distinct (the primary key), two
member rows with the same id are the same row. -/
theorem pairwise_id_inj : ∀ {l : List Snippet},
    l.Pairwise (fun a b => a.id ≠ b.id) →
    ∀ {r s : Snippet}, r ∈ l → s ∈ l → s.id = r.id → s = r
  | [], _, r, _, hr, _, _ => absurd hr (List.not_mem_nil r)
  | a :: l, h, r, s, hr, hs, hid => by
    rw [List.pairwise_cons] at h
    cases hr with
    | head =>
      cases hs with
      | head => rfl
      | tail _ hs => exact absurd hid (fun e => (h.1 s hs) e.symm)
    | tail _ hr =>
      cases hs with
      | head => exact absurd hid (h.1 r hr)
      | tail _ hs => exact pairwise_id_inj h.2 hr hs hid

/-- C9: the store's lifecycle invariant.  A successful `Insert` appends
exactly one new row and leaves every existing row untouched (and a failed
`Insert` changes nothing); the read operations execute `SELECT`s only, so
the table is never updated or deleted through the store; and an expired row,
while still physically present, is invisible to both `Get` and `Latest`. -/
theorem store_lifecycle (db : DB) (title content : String) (d n : Nat)
    (hkey : db.rows.Pairwise (fun a b => a.id ≠ b.id)) :
    (db.failure = none →
      (SnippetModel.Insert db title content d).2.rows =
        db.rows ++
          [{ id := db.nextId, title := title, content := content,
             created := db.now, expires := db.now + d * secondsPerDay }]) ∧
    (∀ msg, db.failure = some msg →
      (SnippetModel.Insert db title content d).2 = db) ∧
    (∀ r ∈ db.rows, r.expires ≤ db.now →
      (∀ s, SnippetModel.Get db r.id ≠ .ok s) ∧
      (∀ l, SnippetModel.Latest db n = .ok l → r ∉ l)) := by
  refine ⟨fun hf => by simp [SnippetModel.Insert, hf],
          fun msg hm => by simp [SnippetModel.Insert, hm],
          fun r hr hexp => ⟨?_, ?_⟩⟩
  · intro s hs
    cases hfail : db.failure with
    | some msg => simp [SnippetModel.Get, hfail] at hs
    | none =>
      simp only [SnippetModel.Get, hfail] at hs
      cases hfind : db.rows.find? (SnippetModel.getPred db r.id) with
      | none => rw [hfind] at hs; exact absurd hs (by simp)
      | some s2 =>
        have hmem := List.mem_of_find?_eq_some hfind
        have hp := List.find?_some hfind
        simp only [SnippetModel.getPred, Bool.and_eq_true, decide_eq_true_eq,
          beq_iff_eq] at hp
        have heq := pairwise_id_inj hkey hr hmem hp.2
        rw [heq] at hp
        omega
  · intro l hl hrl
    cases hfail : db.failure with
    | some msg => simp [SnippetModel.Latest, hfail] at hl
    | none =>
      simp only [SnippetModel.Latest, hfail, Except.ok.injEq] at hl
      subst hl
      have h2 := List.take_subset _ _ hrl
      rw [List.mem_mergeSort, List.mem_filter] at h2
      have h3 := of_decide_eq_true h2.2
      omega

/-- Witness for C9: inserting into a table whose only row is expired
appends the new row after it, and `Get` of the expired row's id fails. -/
theorem store_lifecycle_witness :
    (SnippetModel.Insert dbExpired "t" "c" 1).2.rows =
      dbExpired.rows ++
        [{ id := 2, title := "t", content := "c", created := 10,
           expires := 10 + 1 * secondsPerDay }] ∧
    (∀ s, SnippetModel.Get dbExpired 1 ≠ .ok s) := by
  have h := store_lifecycle dbExpired "t" "c" 1 20 (by simp [dbExpired])
  exact ⟨h.1 rfl,
    (h.2.2 { id := 1, title := "x", content := "y", created := 0, expires := 5 }
      (by simp [dbExpired]) (by decide)).1⟩

end Snippetbox
